import Mathlib

/-!
# Verification of `sparcstools/stitch.py`

Shallow embedding of the stitching orchestration module
(`src/sparcstools/stitch.py`) of the SPARCStools repository, together with
theorems settling the claims about its specification.

The module glues an external registration library (ashlar) to a set of
exporters.  The embedding models the pieces the claims are about:

* file-name construction for the flat-TIFF exporter (`flatTifNames`),
* the crop step of `_assemble_mosaic`, with faithful Python/NumPy slice
  semantics including negative-index wrap-around (`pySlice`),
* the control flow of `generate_stitched` as a trace of events
  (`runStitched`), including the early `sys.exit` for the "partial"
  rescale mode and the `elif` chain selecting exactly one exporter,
* the BIAS XML sidecar built by `_write_xml` (`biasDoc`, `xmlResult`),
* the SLURM batch generation of `prepare_stitch_slurm_job`
  (`to_process`, `n_jobs`, `arrayDirective`),
* the overwrite semantics of the OME-Zarr exporter over a flat model of
  the file system (`zarrExport`),
* the example-export path of `generate_thumbnail` (`exportExamples`).
-/

namespace Sparcs

/-! ## Substring machinery

Python's `x in s` on strings is substring containment; we model it on the
character lists underlying Lean strings. -/

/-- `needle` occurs as a contiguous substring of `hay`. -/
def subList (needle : List Char) : List Char → Bool
  | [] => needle.isEmpty
  | c :: cs => needle.isPrefixOf (c :: cs) || subList needle cs

/-- Substring containment on strings (Python `needle in hay`). -/
def strContains (needle hay : String) : Bool :=
  subList needle.data hay.data

theorem subList_of_isPrefixOf {n w : List Char} (h : n.isPrefixOf w) :
    subList n w = true := by
  cases w with
  | nil =>
    have : n = [] := by
      have := List.isPrefixOf_iff_prefix.mp h
      simpa using List.prefix_nil.mp this
    simp [subList, this, List.isEmpty]
  | cons c cs => simp [subList, h]

theorem subList_append_left {n t : List Char} (s : List Char)
    (h : subList n t = true) : subList n (s ++ t) = true := by
  induction s with
  | nil => simpa using h
  | cons a as ih =>
    simp only [List.cons_append, subList, List.append_eq, ih, Bool.or_true]

theorem subList_of_prefix_append {n u : List Char} (s v : List Char)
    (h : n.isPrefixOf u) : subList n (s ++ (u ++ v)) = true := by
  apply subList_append_left
  apply subList_of_isPrefixOf
  exact List.isPrefixOf_iff_prefix.mpr
    ((List.isPrefixOf_iff_prefix.mp h).trans (List.prefix_append u v))

/-! ## Crop specification and flat-TIFF file names

`generate_stitched` takes `crop = {'top':0, 'bottom':0, 'left':0,
'right':0}`; the flat-TIFF branch (lines 399-426) appends `_cropped` to
every per-channel file name exactly when `np.sum(list(crop.values())) > 0`. -/

structure CropSpec where
  top : Nat
  bottom : Nat
  left : Nat
  right : Nat
deriving DecidableEq, Repr

/-- `np.sum(list(crop.values()))`. -/
def cropSum (c : CropSpec) : Nat :=
  c.top + c.bottom + c.left + c.right

/-- File names written by the flat-TIFF exporter branch of
`generate_stitched` (lines 406-423): `slidename + "_" + channel +
"_cropped.tif"` when the crop margins sum to a positive value, else
`slidename + "_" + channel + ".tif"`. -/
def flatTifNames (slidename : String) (channels : List String)
    (crop : CropSpec) : List String :=
  if 0 < cropSum crop then
    channels.map (fun ch => slidename ++ "_" ++ ch ++ "_cropped.tif")
  else
    channels.map (fun ch => slidename ++ "_" ++ ch ++ ".tif")

/-! ## Python slice semantics and the crop step of `_assemble_mosaic`

`_assemble_mosaic` (lines 255-299) assembles one plane per channel into an
array of shape `(n_channels, x, y)` and, when the crop margins sum to a
positive value, returns `mosaics[:, slice(top, x-bottom), slice(left,
y-right)]` with `top = int(crop['top'] * 20.00)` and so on.  NumPy basic
slicing clamps out-of-range bounds and interprets negative bounds as
counting from the end; `pySlice` reproduces that. -/

/-- Normalize a Python slice bound against length `n`: negative indices
count from the end, and the result is clamped into `[0, n]`. -/
def pyIndexClamp (i : Int) (n : Nat) : Nat :=
  if i < 0 then (i + n).toNat else min i.toNat n

/-- `l[start:stop]` with Python/NumPy semantics (step 1). -/
def pySlice {α : Type} (l : List α) (start stop : Int) : List α :=
  (l.take (pyIndexClamp stop l.length)).drop (pyIndexClamp start l.length)

/-- The fixed thumbnail scale factor (`cropping_factor = 20.00`). -/
def croppingFactor : Nat := 20

/-- The crop step of `_assemble_mosaic` on the list of assembled channel
planes (each plane a list of rows).  `x` and `y` are the mosaic height
and width read from `mosaics.shape`. -/
def cropMosaic (mosaics : List (List (List Nat))) (crop : CropSpec)
    (x y : Nat) : List (List (List Nat)) :=
  if 0 < cropSum crop then
    let top : Int := crop.top * croppingFactor
    let bottom : Int := crop.bottom * croppingFactor
    let left : Int := crop.left * croppingFactor
    let right : Int := crop.right * croppingFactor
    mosaics.map (fun plane =>
      (pySlice plane top (x - bottom)).map (fun row =>
        pySlice row left (y - right)))
  else
    mosaics

theorem pyIndexClamp_le (i : Int) (n : Nat) : pyIndexClamp i n ≤ n := by
  unfold pyIndexClamp
  split
  · omega
  · omega

theorem pySlice_length {α : Type} (l : List α) (start stop : Int) :
    (pySlice l start stop).length =
      pyIndexClamp stop l.length - pyIndexClamp start l.length := by
  have h := pyIndexClamp_le stop l.length
  simp [pySlice, List.length_drop, List.length_take]
  omega

/-- For a crop whose nominal window is non-empty, the slice bounds are
in range and the slice length is exactly `n - a*20 - b*20`. -/
theorem pySlice_length_of_margins {α : Type} (l : List α) (a b n : Nat)
    (hl : l.length = n)
    (h : a * croppingFactor + b * croppingFactor < n) :
    (pySlice l (a * croppingFactor) ((n : Int) - b * croppingFactor)).length
      = n - a * croppingFactor - b * croppingFactor := by
  rw [pySlice_length, hl]
  simp only [croppingFactor] at h ⊢
  unfold pyIndexClamp
  split <;> split <;> omega

/-! ## Control flow of `generate_stitched` as a trace of events

`generate_stitched` (lines 185-479) is modelled as a function from its
configuration to the list of externally visible events it performs, in
source order.  A `sys.exit` or an uncaught Python exception ends the
trace.  The channel map is modelled as the list of channel names in
channel-id order (`list(slide.metadata.channel_map.values())`); the keys
(`mosaic.channels`) are the positions `0, ..., n-1`. -/

/-- The `do_intensity_rescale` parameter: `False`, `True`, `"partial"` or
`"full_image"`. -/
inductive RescaleMode where
  | off
  | on
  | partialRescale
  | fullImage
deriving DecidableEq, Repr

structure StitchConfig where
  slidename : String
  /-- Channel names in channel-id order. -/
  channelMap : List String
  stitchingChannel : String
  crop : CropSpec
  plotQC : Bool
  filetype : List String
  doIntensityRescale : RescaleMode
  noRescaleChannel : Option (List String)
  exportXML : Bool
  returnTilePositions : Bool
  channelOrder : Option (List String)
deriving DecidableEq, Repr

/-- Externally visible events of one `generate_stitched` run. -/
inductive Event where
  /-- `sys.exit(msg)` (line 327). -/
  | configExit (msg : String)
  /-- An uncaught Python exception terminating the run. -/
  | pyError (msg : String)
  /-- `process_axis_flip` (line 330). -/
  | axisFlip
  /-- `aligner.run()` (line 338). -/
  | runAligner
  /-- Modelled from the spec: `plot_edge_scatter(aligner, outdir)` and
  `plot_edge_quality(aligner, outdir)` (`sparcstools._custom_ashlar_funcs`,
  not under `src/`) generate the QC plot files in `outdir` (lines 341-343;
  the docstring: "boolean value indicating if QC plots should be
  generated"). -/
  | writeQCPlots
  /-- `np.savetxt(... slidename + "_tile_positions.tsv" ...)` (line 378). -/
  | writeTilePositions (name : String)
  /-- `_assemble_mosaic(mosaic, crop = crop)` (lines 387, 404, 438). -/
  | assembleMosaic
  /-- `im.save(...)` of one per-channel flat TIFF (lines 413, 423). -/
  | writeImage (name : String)
  /-- `_write_xml(outdir, ..., slidename, cropped = ...)` (lines 416, 426). -/
  | writeXML (slidename : String) (cropped : Bool)
  /-- `PyramidWriter(...).run()` (lines 430-432). -/
  | writeOmeTif (name : String)
  /-- `write_image(...)` of the OME-Zarr store (lines 440-462). -/
  | writeZarr (name : String)
  /-- The `"return_array"` pseudo-filetype returns the mosaic (line 397). -/
  | returnArray
deriving DecidableEq, Repr

/-- Resolve a channel-order list of names to indices via
`list(slide.metadata.channel_map.values()).index(channel)` (line 366);
a name absent from the channel map raises `ValueError`. -/
def resolveChannels (channelMap : List String) :
    List String → Except String (List Nat)
  | [] => Except.ok []
  | c :: cs =>
    match channelMap.indexOf? c with
    | none => Except.error ("ValueError: " ++ c ++ " is not in list")
    | some i => (resolveChannels channelMap cs).map (fun l => i :: l)

/-- Events of lines 370-462: tile-position output followed by the
`elif` chain over `filetype` that selects exactly one exporter. -/
def exporterEvents (cfg : StitchConfig) : List Event :=
  (if "return_array" ∈ cfg.filetype then
    []
  else if cfg.returnTilePositions then
    [Event.writeTilePositions (cfg.slidename ++ "_tile_positions.tsv")]
  else []) ++
  (if "return_array" ∈ cfg.filetype then
    [Event.assembleMosaic, Event.returnArray]
  else if ".tif" ∈ cfg.filetype then
    [Event.assembleMosaic] ++
    (flatTifNames cfg.slidename cfg.channelMap cfg.crop).map Event.writeImage ++
    (if cfg.exportXML then
      [Event.writeXML cfg.slidename (0 < cropSum cfg.crop)]
    else [])
  else if "ome.tif" ∈ cfg.filetype then
    [Event.writeOmeTif (cfg.slidename ++ ".ome.tiff")]
  else if "ome.zarr" ∈ cfg.filetype then
    [Event.assembleMosaic, Event.writeZarr (cfg.slidename ++ ".ome.zarr")]
  else [])

/-- The trace of one `generate_stitched` run, in source order:

* lines 320-327: when `do_intensity_rescale == "partial"`, either the
  `sys.exit` (no exclusion list given) or — in Python 3 — an
  `AttributeError` from `slide.metadata.channel_map.values().index(...)`
  (line 324: `dict_values` has no `index` method), so this branch never
  proceeds;
* line 330: axis flip; line 333: stitching-channel lookup
  (`ValueError` when absent); line 338: alignment; lines 341-343: QC
  plots; lines 359-368: channel-order resolution (`ValueError` on an
  unknown name); lines 370-462: positions and the exporter chain. -/
def runStitched (cfg : StitchConfig) : List Event :=
  if cfg.doIntensityRescale = RescaleMode.partialRescale then
    if cfg.noRescaleChannel ≠ none then
      [Event.pyError
        "AttributeError: dict_values object has no attribute index"]
    else
      [Event.configExit
        "do_intensity_rescale set to partial but not channel passed for which no rescaling should be done."]
  else
    [Event.axisFlip] ++
    (if cfg.stitchingChannel ∈ cfg.channelMap then
      [Event.runAligner] ++
      (if cfg.plotQC then [Event.writeQCPlots] else []) ++
      (match cfg.channelOrder with
       | none => exporterEvents cfg
       | some order =>
         match resolveChannels cfg.channelMap order with
         | Except.error msg => [Event.pyError msg]
         | Except.ok _ => exporterEvents cfg)
    else
      [Event.pyError ("ValueError: " ++ cfg.stitchingChannel ++ " is not in list")])

/-- Events that write a file to the output directory. -/
def Event.isFileOutput : Event → Bool
  | Event.writeQCPlots => true
  | Event.writeTilePositions _ => true
  | Event.writeImage _ => true
  | Event.writeXML _ _ => true
  | Event.writeOmeTif _ => true
  | Event.writeZarr _ => true
  | _ => false

/-- Events that write stitched output or the tile-position table
(everything of lines 370-462 that touches the file system). -/
def Event.isExportOutput : Event → Bool
  | Event.writeTilePositions _ => true
  | Event.writeImage _ => true
  | Event.writeXML _ _ => true
  | Event.writeOmeTif _ => true
  | Event.writeZarr _ => true
  | _ => false

/-- Run-terminating events (`sys.exit` or an uncaught exception). -/
def Event.isErrorStop : Event → Bool
  | Event.configExit _ => true
  | Event.pyError _ => true
  | _ => false

/-- File outputs performed before the run stops with an error. -/
def outputsBeforeError (t : List Event) : List Event :=
  (t.takeWhile (fun e => ! e.isErrorStop)).filter Event.isFileOutput

/-! ## The BIAS XML sidecar (`_write_xml`, lines 44-92)

`_write_xml` builds the document with `yattag` (`Doc().tagtext()`) and
serializes it with `indent(doc.getvalue(), indentation = ' '*4, newline =
'\r\n')`.  The document tree is embedded as `XmlNode`; the serializer
models yattag's `indent`: every element on its own line, except that an
element whose content is only text is rendered on a single line. -/

inductive XmlNode where
  | elem (tg : String) (attrs : List (String × String))
      (children : List XmlNode)
  | text (s : String)

instance : Inhabited XmlNode := ⟨XmlNode.text ""⟩

def XmlNode.isText : XmlNode → Bool
  | XmlNode.text _ => true
  | _ => false

def XmlNode.textContent : XmlNode → String
  | XmlNode.text s => s
  | _ => ""

def XmlNode.tagName : XmlNode → String
  | XmlNode.elem t _ _ => t
  | XmlNode.text _ => ""

def XmlNode.children : XmlNode → List XmlNode
  | XmlNode.elem _ _ cs => cs
  | XmlNode.text _ => []

/-- The value of attribute `name`, when present. -/
def XmlNode.attr (name : String) : XmlNode → Option String
  | XmlNode.elem _ attrs _ =>
    (attrs.find? (fun a => a.1 == name)).map (fun a => a.2)
  | XmlNode.text _ => none

/-- Concatenated text content of the direct children. -/
def XmlNode.innerText (n : XmlNode) : String :=
  String.join (n.children.map XmlNode.textContent)

/-- ` name="value"` attribute rendering. -/
def xmlAttrs (attrs : List (String × String)) : String :=
  String.join (attrs.map (fun a => " " ++ a.1 ++ "=\"" ++ a.2 ++ "\""))

mutual

/-- Lines (depth, content) of one node, yattag `indent` style. -/
def nodeLines (d : Nat) : XmlNode → List (Nat × String)
  | XmlNode.text s => [(d, s)]
  | XmlNode.elem t attrs children =>
    if children.all XmlNode.isText then
      [(d, "<" ++ t ++ xmlAttrs attrs ++ ">" ++
        String.join (children.map XmlNode.textContent) ++ "</" ++ t ++ ">")]
    else
      (d, "<" ++ t ++ xmlAttrs attrs ++ ">") ::
        (childLines (d + 1) children ++ [(d, "</" ++ t ++ ">")])

def childLines (d : Nat) : List XmlNode → List (Nat × String)
  | [] => []
  | n :: ns => nodeLines d n ++ childLines d ns

end

/-- `indentation` repeated `d` times. -/
def indentOf (ind : String) (d : Nat) : String :=
  String.join (List.replicate d ind)

/-- Serialize header plus root, joining lines with `nl` and indenting by
`ind` per depth (yattag `indent(..., indentation, newline)`). -/
def serializeDoc (ind nl header : String) (root : XmlNode) : String :=
  String.intercalate nl
    (((0, header) :: nodeLines 0 root).map
      (fun l => indentOf ind l.1 ++ l.2))

/-- `image_paths` of `_write_xml` (lines 62-65). -/
def imagePaths (slidename : String) (channels : List String)
    (cropped : Bool) : List String :=
  if cropped then
    channels.map (fun x => slidename ++ "_" ++ x ++ "_cropped.tif")
  else
    channels.map (fun x => slidename ++ "_" ++ x ++ ".tif")

/-- The `channel` elements (lines 72-76): `with tag("channel", id =
str(i+1)): with tag("name"): text(channel)`; `i` is the running
`enumerate` index. -/
def channelNodes (i : Nat) : List String → List XmlNode
  | [] => []
  | c :: cs =>
    XmlNode.elem "channel" [("id", toString (i + 1))]
      [XmlNode.elem "name" [] [XmlNode.text c]] :: channelNodes (i + 1) cs

/-- The `image` elements (lines 77-81): `with tag("image",
url=str(image_path)): with tag("channel"): text(str(i+1))`. -/
def imageNodes (i : Nat) : List String → List XmlNode
  | [] => []
  | p :: ps =>
    XmlNode.elem "image" [("url", p)]
      [XmlNode.elem "channel" [] [XmlNode.text (toString (i + 1))]] ::
      imageNodes (i + 1) ps

/-- The document built by `_write_xml` (lines 67-81). -/
def biasDoc (channels : List String) (slidename : String)
    (cropped : Bool) : XmlNode :=
  XmlNode.elem "BIAS" [("version", "1.0")]
    [XmlNode.elem "channels" [] (channelNodes 0 channels),
     XmlNode.elem "images" []
       (imageNodes 0 (imagePaths slidename channels cropped))]

def xmlHeader : String := "<?xml version=\"1.0\" encoding=\"UTF-8\"?>"

/-- The string written to `{slidename}.XML` (lines 83-92): the document
serialized with 4-space indentation and CRLF newlines. -/
def xmlResult (channels : List String) (slidename : String)
    (cropped : Bool) : String :=
  serializeDoc "    " "\r\n" xmlHeader (biasDoc channels slidename cropped)

/-! ## Batch-job generation (`prepare_stitch_slurm_job`, lines 505-640)

The well and timepoint identifiers are obtained in the source with
`np.unique` over regex matches on directory listings; they enter the
model as the resulting lists.  Braces and apostrophes inside generated
shell text are written with `\x7b`, `\x7d` and `\x27` escapes. -/

/-- Python `str(n).zfill(3)`. -/
def zfill3 (n : Nat) : String :=
  let s := toString n
  String.mk (List.replicate (3 - s.length) '0') ++ s

/-- The per-job file pattern (line 584):
`f"{timepoint}_{well}_" + "{channel}_" + "zstack" +
str(zstack_value).zfill(3) + "_r{row:03}_c{col:03}.tif"`. -/
def stitchPattern (timepoint well : String) (zstack_value : Nat) : String :=
  timepoint ++ "_" ++ well ++ "_\x7bchannel\x7d_" ++ "zstack" ++
    zfill3 zstack_value ++ "_r\x7brow:03\x7d_c\x7bcol:03\x7d.tif"

/-- The parameter table `to_process` (lines 581-588): one row
`(pattern, slidename, path)` per timepoint-well combination, outer loop
over timepoints. -/
def to_process (timepoints wells : List String) (zstack_value : Nat)
    (input_path : String) : List (String × String × String) :=
  timepoints.flatMap (fun timepoint =>
    wells.map (fun well =>
      (stitchPattern timepoint well zstack_value,
       timepoint ++ "_" ++ well,
       input_path ++ "/" ++ well)))

/-- `n_jobs = int(np.ceil(to_process.shape[0]/jobs_per_file))` (line 597);
ceiling division, exact on the integer ranges involved. -/
def n_jobs (rows jobs_per_file : Nat) : Nat :=
  (rows + jobs_per_file - 1) / jobs_per_file

/-- The array line of `run.sh` (line 611):
`f"#SBATCH --array=1-{n_jobs}%20 \n\n"`; the `%20` suffix caps the
number of simultaneously running array tasks at 20. -/
def arrayDirective (n : Nat) : String :=
  "#SBATCH --array=1-" ++ toString n ++ "%20 \n\n"

/-- The strings written to `run.sh` (lines 600-639), in order. -/
def runShLines (outdir_slurm : String) (jobs_per_file nJobs : Nat) :
    List String :=
  ["#!/bin/bash -l \n",
   "#SBATCH --job-name=stitching \n",
   "#SBATCH -o \"./run%A-%a.out.%j\" \n",
   "#SBATCH -e \"./run%A-%a.err.%j\" \n",
   "#SBATCH -D ./ \n",
   "#SBATCH --nodes=1 \n",
   "#SBATCH --tasks-per-node=1 \n",
   "#SBATCH --cpus-per-task=24 \n",
   "#SBATCH --time=24:00:00 \n",
   arrayDirective nJobs,
   "PER_TASK=" ++ toString jobs_per_file ++ "\n",
   "# Calculate the starting and ending values for this task based\n",
   "# on the SLURM task and the number of runs per task.\n",
   "START_NUM=$(( ($SLURM_ARRAY_TASK_ID - 1) * $PER_TASK + 1 ))\n",
   "END_NUM=$(( $SLURM_ARRAY_TASK_ID * $PER_TASK ))\n",
   "#Specify the path to the config file \nconfig=" ++ outdir_slurm ++
     "/array_inputs.csv\n\n",
   "module load cuda/11.0  \n",
   "module load jdk/8  \n",
   "module list  \n \n",
   "conda activate stitching  \n",
   "echo $CONDA_DEFAULT_ENV \n\n",
   "conda list \n",
   "for (( run=$START_NUM; run<=END_NUM; run++ )); do\n",
   "  #Extract parameters for the current $run \n",
   "  pattern=$(awk -v ArrayTaskID=$run \x27$1==ArrayTaskID \x7bprint $2\x7d\x27 $config) \n",
   "  slidename=$(awk -v ArrayTaskID=$run \x27$1==ArrayTaskID \x7bprint $3\x7d\x27 $config) \n",
   "  path=$(awk -v ArrayTaskID=$run \x27$1==ArrayTaskID \x7bprint $4\x7d\x27 $config) \n \n",
   "  echo \"calling processing script with input parameter: \x7b$pattern\x7d \x7b$slidename\x7d \x7b$path\x7d \"  \n",
   "  srun python ../processing.py $pattern $slidename $path \n",
   "done\n"]

/-! ## OME-Zarr overwrite semantics (lines 434-462)

The file system is modelled flat: a list of (chunk path, datum) pairs,
a chunk path being its list of components.  A Zarr store at `p` owns
every entry whose path has `p` as a prefix.  The exporter deletes a
pre-existing store (`if os.path.isdir(path): shutil.rmtree(path)`) and
then writes its chunks under `p`. -/

/-- One Zarr store's chunks placed under store path `p`. -/
def chunkEntries (p : List String) (chunks : List (List String × Nat)) :
    List (List String × Nat) :=
  chunks.map (fun c => (p ++ c.1, c.2))

/-- `os.path.isdir(p)` over the flat model. -/
def existsUnder (fs : List (List String × Nat)) (p : List String) : Bool :=
  fs.any (fun e => p.isPrefixOf e.1)

/-- `shutil.rmtree(p)`. -/
def rmtree (fs : List (List String × Nat)) (p : List String) :
    List (List String × Nat) :=
  fs.filter (fun e => ! p.isPrefixOf e.1)

/-- The OME-Zarr exporter's file-system effect (lines 442-462). -/
def zarrExport (fs : List (List String × Nat)) (p : List String)
    (chunks : List (List String × Nat)) : List (List String × Nat) :=
  (if existsUnder fs p then rmtree fs p else fs) ++ chunkEntries p chunks

/-! ## Example export of `generate_thumbnail` (lines 160-183) -/

/-- Python `s[0:10]`. -/
def pyStrTake (s : String) (n : Nat) : String :=
  String.mk (s.data.take n)

/-- The files the example exporter samples from (lines 164-173):
directory entries containing `pattern[0:10]`, then those containing the
stitching-channel name. -/
def dapiFiles (input_files : List String)
    (pattern stitching_channel : String) : List String :=
  (input_files.filter (fun x => strContains (pyStrTake pattern 10) x)).filter
    (fun x => strContains stitching_channel x)

/-- The example-export step (lines 172-181): `random.sample(_files, 10)`
raises `ValueError` exactly when fewer than 10 files are available; the
random choice itself is modelled deterministically as the first 10
files, which preserves the sample size and the error condition.  On
success the result lists the file names written (outer loop over
channels, `file.replace(stitching_channel, channel)` on each sampled
file). -/
def exportExamples (input_files : List String)
    (pattern stitching_channel : String) (channels : List String) :
    Except String (List String) :=
  let fs := dapiFiles input_files pattern stitching_channel
  if 10 ≤ fs.length then
    Except.ok (channels.flatMap (fun channel =>
      (fs.take 10).map (fun file =>
        file.replace stitching_channel channel)))
  else
    Except.error "ValueError: Sample larger than population or is negative"

/-! ## Concrete configurations used by closed theorems -/

/-- A well-formed run asking for both the flat-TIFF and the OME-Zarr
exporter. -/
def cfgMultiFiletype : StitchConfig :=
  { slidename := "S1", channelMap := ["DAPI"], stitchingChannel := "DAPI",
    crop := ⟨0, 0, 0, 0⟩, plotQC := false, filetype := [".tif", "ome.zarr"],
    doIntensityRescale := RescaleMode.on, noRescaleChannel := none,
    exportXML := false, returnTilePositions := false, channelOrder := none }

/-- A run with `do_intensity_rescale = "partial"` and an exclusion list
naming a valid channel. -/
def cfgPartialWithList : StitchConfig :=
  { slidename := "S1", channelMap := ["DAPI", "Alexa488"],
    stitchingChannel := "Alexa488", crop := ⟨0, 0, 0, 0⟩, plotQC := true,
    filetype := [".tif"], doIntensityRescale := RescaleMode.partialRescale,
    noRescaleChannel := some ["DAPI"], exportXML := true,
    returnTilePositions := true, channelOrder := none }

/-! ## Theorems -/

/-- C2: if `generate_stitched` is called with `do_intensity_rescale =
"partial"` and `no_rescale_channel = None`, the run terminates at once
with the `sys.exit` configuration error of line 327: the whole trace is
that single event, so no alignment and no assembly work happens. -/
theorem partial_without_exclusion_exits (cfg : StitchConfig)
    (h1 : cfg.doIntensityRescale = RescaleMode.partialRescale)
    (h2 : cfg.noRescaleChannel = none) :
    runStitched cfg =
      [Event.configExit "do_intensity_rescale set to partial but not channel passed for which no rescaling should be done."] ∧
    Event.runAligner ∉ runStitched cfg ∧
    Event.assembleMosaic ∉ runStitched cfg := by
  have ht : runStitched cfg =
      [Event.configExit "do_intensity_rescale set to partial but not channel passed for which no rescaling should be done."] := by
    unfold runStitched
    rw [if_pos h1, if_neg (by simp [h2])]
  refine ⟨ht, ?_, ?_⟩ <;> rw [ht] <;> simp

/-- Witness for `partial_without_exclusion_exits` at a concrete
configuration. -/
theorem partial_without_exclusion_exits_witness :
    runStitched
      { slidename := "S1", channelMap := ["DAPI"], stitchingChannel := "DAPI",
        crop := ⟨0, 0, 0, 0⟩, plotQC := true, filetype := [".tif"],
        doIntensityRescale := RescaleMode.partialRescale,
        noRescaleChannel := none, exportXML := true,
        returnTilePositions := true, channelOrder := none } =
      [Event.configExit "do_intensity_rescale set to partial but not channel passed for which no rescaling should be done."] ∧
    Event.runAligner ∉ runStitched
      { slidename := "S1", channelMap := ["DAPI"], stitchingChannel := "DAPI",
        crop := ⟨0, 0, 0, 0⟩, plotQC := true, filetype := [".tif"],
        doIntensityRescale := RescaleMode.partialRescale,
        noRescaleChannel := none, exportXML := true,
        returnTilePositions := true, channelOrder := none } ∧
    Event.assembleMosaic ∉ runStitched
      { slidename := "S1", channelMap := ["DAPI"], stitchingChannel := "DAPI",
        crop := ⟨0, 0, 0, 0⟩, plotQC := true, filetype := [".tif"],
        doIntensityRescale := RescaleMode.partialRescale,
        noRescaleChannel := none, exportXML := true,
        returnTilePositions := true, channelOrder := none } :=
  partial_without_exclusion_exits _ rfl rfl

/-- C1: the exporter branches of `generate_stitched` form an
`if/elif/elif/elif` chain (lines 382-462), so a filetype list naming
both `".tif"` and `"ome.zarr"` produces only the flat-TIFF output: the
trace of `cfgMultiFiletype` contains the per-channel TIFF write and no
OME-Zarr write, although the function's own docstring promises that
"all export types will be generated". -/
theorem multi_filetype_single_exporter :
    runStitched cfgMultiFiletype =
      [Event.axisFlip, Event.runAligner, Event.assembleMosaic,
       Event.writeImage "S1_DAPI.tif"] ∧
    Event.writeZarr "S1.ome.zarr" ∉ runStitched cfgMultiFiletype ∧
    (runStitched cfgMultiFiletype).all
      (fun e => match e with
        | Event.writeZarr _ => false
        | Event.writeOmeTif _ => false
        | _ => true) = true := by decide

/-- C3: with `do_intensity_rescale = "partial"` and a valid exclusion
list, line 324 calls `.index` on `slide.metadata.channel_map.values()`;
in Python 3 a `dict_values` view has no `index` method, so the run dies
with an `AttributeError` before resolving any channel, recording no
exclusion set and performing no alignment or export. -/
theorem partial_with_list_raises_attribute_error :
    runStitched cfgPartialWithList =
      [Event.pyError "AttributeError: dict_values object has no attribute index"] ∧
    Event.runAligner ∉ runStitched cfgPartialWithList ∧
    (runStitched cfgPartialWithList).all
      (fun e => e.isFileOutput = false) = true := by decide

theorem indexOf?_eq_none_of_not_mem {l : List String} {c : String}
    (h : c ∉ l) : l.indexOf? c = none :=
  List.indexOf?_eq_none_iff.mpr (fun _x hx hbeq => h ((beq_iff_eq.mp hbeq) ▸ hx))

theorem resolveChannels_error {channelMap order : List String}
    (h : ∃ c ∈ order, c ∉ channelMap) :
    ∃ msg, resolveChannels channelMap order = Except.error msg := by
  induction order with
  | nil => simp at h
  | cons c cs ih =>
    by_cases hc : c ∈ channelMap
    · obtain ⟨d, hd, hdm⟩ := h
      have hd2 : d ∈ cs := by
        rcases List.mem_cons.mp hd with rfl | h2
        · exact absurd hc hdm
        · exact h2
      obtain ⟨msg, hmsg⟩ := ih ⟨d, hd2, hdm⟩
      cases hidx : channelMap.indexOf? c with
      | none =>
        exact ⟨"ValueError: " ++ c ++ " is not in list",
          by simp [resolveChannels, hidx]⟩
      | some i => exact ⟨msg, by simp [resolveChannels, hidx, hmsg, Except.map]⟩
    · exact ⟨"ValueError: " ++ c ++ " is not in list",
        by simp [resolveChannels, indexOf?_eq_none_of_not_mem hc]⟩

/-- A run requesting a channel order containing a name absent from the
channel map, with all other parameters at their defaults. -/
def cfgUnknownOrder : StitchConfig :=
  { slidename := "S1", channelMap := ["DAPI"], stitchingChannel := "DAPI",
    crop := ⟨0, 0, 0, 0⟩, plotQC := true, filetype := [".tif"],
    doIntensityRescale := RescaleMode.on, noRescaleChannel := none,
    exportXML := true, returnTilePositions := true,
    channelOrder := some ["GFP"] }

/-- C9 counterexample: with an unknown name in `channel_order` under the
default `plot_QC = True`, the run does stop with an error, but only
after the aligner has run and the QC plot output has been written — so
the termination is neither immediate nor before any output. -/
theorem unknown_channel_order_not_immediate :
    (runStitched cfgUnknownOrder).any (fun e => e.isErrorStop) = true ∧
    outputsBeforeError (runStitched cfgUnknownOrder) ≠ [] ∧
    Event.runAligner ∈
      (runStitched cfgUnknownOrder).takeWhile (fun e => ! e.isErrorStop) := by
  decide

/-- C9 (amended): if the `channel_order` list contains a name absent
from the channel map, `generate_stitched` terminates with the
`ValueError` of the name lookup (line 366); this happens after the axis
flip, the alignment and any QC plots, but before the tile positions and
before any stitched output are written — the trace contains no export
output at all. -/
theorem unknown_channel_order_fatal (cfg : StitchConfig) (order : List String)
    (hmode : cfg.doIntensityRescale ≠ RescaleMode.partialRescale)
    (hstitch : cfg.stitchingChannel ∈ cfg.channelMap)
    (horder : cfg.channelOrder = some order)
    (hbad : ∃ c ∈ order, c ∉ cfg.channelMap) :
    ∃ msg,
      runStitched cfg =
        [Event.axisFlip, Event.runAligner] ++
          (if cfg.plotQC then [Event.writeQCPlots] else []) ++
          [Event.pyError msg] ∧
      (runStitched cfg).all (fun e => e.isExportOutput = false) = true := by
  obtain ⟨msg, hmsg⟩ := resolveChannels_error hbad
  have ht : runStitched cfg =
      [Event.axisFlip] ++
        ([Event.runAligner] ++
          (if cfg.plotQC then [Event.writeQCPlots] else []) ++
          [Event.pyError msg]) := by
    unfold runStitched
    rw [if_neg hmode, if_pos hstitch, horder]
    simp only [hmsg]
  refine ⟨msg, ?_, ?_⟩
  · rw [ht]; simp
  · rw [ht]; by_cases hq : cfg.plotQC <;>
      simp [hq, Event.isExportOutput]

/-- Witness for `unknown_channel_order_fatal` at `cfgUnknownOrder`. -/
theorem unknown_channel_order_fatal_witness :
    ∃ msg,
      runStitched cfgUnknownOrder =
        [Event.axisFlip, Event.runAligner] ++
          (if cfgUnknownOrder.plotQC then [Event.writeQCPlots] else []) ++
          [Event.pyError msg] ∧
      (runStitched cfgUnknownOrder).all
        (fun e => e.isExportOutput = false) = true :=
  unknown_channel_order_fatal cfgUnknownOrder ["GFP"] (by decide) (by decide)
    rfl ⟨"GFP", by decide, by decide⟩

theorem writeImage_mem_exporterEvents {cfg : StitchConfig} {name : String}
    (h : Event.writeImage name ∈ exporterEvents cfg) :
    name ∈ flatTifNames cfg.slidename cfg.channelMap cfg.crop := by
  unfold exporterEvents at h
  simp only [List.mem_append] at h
  rcases h with h | h
  · split at h
    · simp at h
    · split at h <;> simp at h
  · split at h
    · simp at h
    · split at h
      · simp only [List.mem_append, List.mem_map, List.mem_singleton] at h
        rcases h with (h | ⟨a, ha, hae⟩) | h
        · simp at h
        · obtain rfl : a = name := by
            simpa using hae
          exact ha
        · split at h <;> simp at h
      · split at h
        · simp at h
        · split at h <;> simp at h

theorem writeImage_mem_runStitched {cfg : StitchConfig} {name : String}
    (h : Event.writeImage name ∈ runStitched cfg) :
    name ∈ flatTifNames cfg.slidename cfg.channelMap cfg.crop := by
  unfold runStitched at h
  split at h
  · split at h <;> simp at h
  · simp only [List.mem_append, List.mem_singleton] at h
    rcases h with h | h
    · simp at h
    · split at h
      · simp only [List.mem_append] at h
        rcases h with (h | h) | h
        · simp at h
        · split at h <;> simp at h
        · split at h
          · exact writeImage_mem_exporterEvents h
          · split at h
            · simp at h
            · exact writeImage_mem_exporterEvents h
      · simp at h

theorem strContains_append_right (s t n : String)
    (h : n.data.isPrefixOf t.data = true) :
    strContains n (s ++ t) = true := by
  unfold strContains
  rw [String.data_append]
  exact subList_append_left s.data (subList_of_isPrefixOf h)

/-- A run whose single channel is literally named `cropped`, with all
crop margins zero. -/
def cfgChannelNamedCropped : StitchConfig :=
  { slidename := "S", channelMap := ["cropped"],
    stitchingChannel := "cropped", crop := ⟨0, 0, 0, 0⟩, plotQC := false,
    filetype := [".tif"], doIntensityRescale := RescaleMode.on,
    noRescaleChannel := none, exportXML := false,
    returnTilePositions := false, channelOrder := none }

/-- C5 counterexample: for the channel list `["cropped"]` and slide
`"S"` with all crop margins zero, the flat-TIFF exporter writes
`S_cropped.tif`, whose name contains the marker `_cropped` although the
margins sum to zero — so the claimed equivalence fails as stated for
every channel list. -/
theorem crop_marker_iff_counterexample :
    cropSum cfgChannelNamedCropped.crop = 0 ∧
    Event.writeImage "S_cropped.tif" ∈ runStitched cfgChannelNamedCropped ∧
    strContains "_cropped" "S_cropped.tif" = true := by decide

/-- C5 (amended): provided no uncropped file name
`{slide}_{channel}.tif` itself contains the marker `_cropped`, every
flat-TIFF file name written by `generate_stitched` contains `_cropped`
exactly when the crop margins sum to a positive value; and when the
margins sum to zero the crop step of `_assemble_mosaic` is skipped (the
mosaic is returned unchanged). -/
theorem flat_tif_crop_marker_iff (cfg : StitchConfig)
    (hclean : ∀ c ∈ cfg.channelMap,
      strContains "_cropped" (cfg.slidename ++ "_" ++ c ++ ".tif") = false) :
    (∀ name, Event.writeImage name ∈ runStitched cfg →
      (strContains "_cropped" name = true ↔ 0 < cropSum cfg.crop)) ∧
    (cropSum cfg.crop = 0 →
      ∀ (m : List (List (List Nat))) (x y : Nat),
        cropMosaic m cfg.crop x y = m) := by
  constructor
  · intro name hmem
    have hname := writeImage_mem_runStitched hmem
    unfold flatTifNames at hname
    by_cases hpos : 0 < cropSum cfg.crop
    · rw [if_pos hpos] at hname
      simp only [List.mem_map] at hname
      obtain ⟨c, hc, rfl⟩ := hname
      simp only [hpos, iff_true]
      exact strContains_append_right _ _ _ (by decide)
    · rw [if_neg hpos] at hname
      simp only [List.mem_map] at hname
      obtain ⟨c, hc, rfl⟩ := hname
      simp [hclean c hc, hpos]
  · intro h0 m x y
    unfold cropMosaic
    rw [if_neg (by omega)]

/-- The `cfgChannelNamedCropped` counterpart with an ordinary channel
name and a positive top margin. -/
def cfgCropOne : StitchConfig :=
  { slidename := "S1", channelMap := ["DAPI"], stitchingChannel := "DAPI",
    crop := ⟨1, 0, 0, 0⟩, plotQC := false, filetype := [".tif"],
    doIntensityRescale := RescaleMode.on, noRescaleChannel := none,
    exportXML := false, returnTilePositions := false, channelOrder := none }

/-- Witness for `flat_tif_crop_marker_iff` at `cfgCropOne`. -/
theorem flat_tif_crop_marker_iff_witness :
    strContains "_cropped" "S1_DAPI_cropped.tif" = true ↔
      0 < cropSum cfgCropOne.crop :=
  (flat_tif_crop_marker_iff cfgCropOne (by decide)).1
    "S1_DAPI_cropped.tif" (by decide)

/-- C4: for a crop spec with positive margin sum whose window is
non-empty (the margins scaled by the fixed factor 20 fit strictly inside
the mosaic), every channel plane of the cropped mosaic has the same
shape, namely `(x - top*20 - bottom*20, y - left*20 - right*20)`. -/
theorem crop_shape_consistent (mosaics : List (List (List Nat)))
    (crop : CropSpec) (x y : Nat)
    (hpos : 0 < cropSum crop)
    (hrect : ∀ plane ∈ mosaics,
      plane.length = x ∧ ∀ row ∈ plane, row.length = y)
    (hx : crop.top * croppingFactor + crop.bottom * croppingFactor < x)
    (hy : crop.left * croppingFactor + crop.right * croppingFactor < y) :
    ∀ plane ∈ cropMosaic mosaics crop x y,
      plane.length =
        x - crop.top * croppingFactor - crop.bottom * croppingFactor ∧
      ∀ row ∈ plane,
        row.length =
          y - crop.left * croppingFactor - crop.right * croppingFactor := by
  intro plane hp
  simp only [cropMosaic] at hp
  rw [if_pos hpos] at hp
  simp only [List.mem_map] at hp
  obtain ⟨p0, hp0, rfl⟩ := hp
  obtain ⟨hlen, hrow⟩ := hrect p0 hp0
  refine ⟨?_, ?_⟩
  · rw [List.length_map]
    exact pySlice_length_of_margins p0 crop.top crop.bottom x hlen hx
  · intro row hr
    simp only [List.mem_map] at hr
    obtain ⟨r0, hr0, rfl⟩ := hr
    have hr0m : r0 ∈ p0 :=
      List.mem_of_mem_take (List.mem_of_mem_drop hr0)
    exact pySlice_length_of_margins r0 crop.left crop.right y
      (hrow r0 hr0m) hy

/-- Witness for `crop_shape_consistent`: a 2-channel 21 x 1 mosaic
cropped with a top margin of 1 thumbnail pixel; the first cropped plane
has height 21 - 1*20 - 0*20 = 1. -/
theorem crop_shape_consistent_witness :
    ((cropMosaic
        (List.replicate 2 (List.replicate 21 (List.replicate 1 (0 : Nat))))
        ⟨1, 0, 0, 0⟩ 21 1).head!).length =
      21 - 1 * croppingFactor - 0 * croppingFactor :=
  (crop_shape_consistent
    (List.replicate 2 (List.replicate 21 (List.replicate 1 (0 : Nat))))
    ⟨1, 0, 0, 0⟩ 21 1 (by decide) (by decide) (by decide) (by decide)
    ((cropMosaic
        (List.replicate 2 (List.replicate 21 (List.replicate 1 (0 : Nat))))
        ⟨1, 0, 0, 0⟩ 21 1).head!) (by decide)).1

theorem to_process_length (timepoints wells : List String)
    (zstack_value : Nat) (input_path : String) :
    (to_process timepoints wells zstack_value input_path).length =
      timepoints.length * wells.length := by
  unfold to_process
  induction timepoints with
  | nil => simp
  | cons t ts ih => simp [ih, Nat.succ_mul, Nat.add_comm]

theorem n_jobs_eq_ceil (rows jpf : Nat) (h : 0 < jpf) :
    n_jobs rows jpf = ⌈(rows : ℚ) / (jpf : ℚ)⌉₊ := by
  rcases Nat.eq_zero_or_pos rows with h0 | h0
  · subst h0
    have hz : n_jobs 0 jpf = 0 := by
      unfold n_jobs
      rw [Nat.zero_add]
      exact Nat.div_eq_of_lt (by omega)
    simp [hz]
  · have hqeq : n_jobs rows jpf = (rows - 1) / jpf + 1 := by
      unfold n_jobs
      have harr : rows + jpf - 1 = (rows - 1) + jpf := by omega
      rw [harr, Nat.add_div_right _ h]
    have e1 := Nat.div_add_mod (rows - 1) jpf
    have hm : (rows - 1) % jpf < jpf := Nat.mod_lt _ h
    have g1 : ((rows - 1) / jpf) * jpf < rows := by
      rw [Nat.mul_comm]
      omega
    have g2 : rows ≤ ((rows - 1) / jpf + 1) * jpf := by
      rw [Nat.add_mul, Nat.one_mul, Nat.mul_comm]
      omega
    have hjq : (0 : ℚ) < (jpf : ℚ) := by exact_mod_cast h
    have hne : (rows - 1) / jpf + 1 ≠ 0 := Nat.succ_ne_zero _
    rw [hqeq]
    symm
    rw [Nat.ceil_eq_iff hne]
    rw [Nat.add_sub_cancel]
    constructor
    · rw [lt_div_iff₀ hjq]
      exact_mod_cast g1
    · rw [div_le_iff₀ hjq]
      exact_mod_cast g2

/-- C7: for distinct well and timepoint lists of lengths `N` and `M`,
`prepare_stitch_slurm_job` builds a parameter table `to_process` with
exactly `M * N` rows (one per timepoint-well job), the generated
`run.sh` contains the array directive whose size `n_jobs` is the
ceiling of `M * N` over `jobs_per_file`, and that directive carries the
`%20` cap on simultaneously running tasks. -/
theorem batch_job_counts (timepoints wells : List String)
    (zstack_value jobs_per_file : Nat) (input_path outdir_slurm : String)
    (hjpf : 0 < jobs_per_file) :
    (to_process timepoints wells zstack_value input_path).length =
      timepoints.length * wells.length ∧
    n_jobs (to_process timepoints wells zstack_value input_path).length
        jobs_per_file =
      ⌈((timepoints.length * wells.length : Nat) : ℚ) /
        (jobs_per_file : ℚ)⌉₊ ∧
    arrayDirective
        (n_jobs (to_process timepoints wells zstack_value input_path).length
          jobs_per_file) ∈
      runShLines outdir_slurm jobs_per_file
        (n_jobs (to_process timepoints wells zstack_value input_path).length
          jobs_per_file) ∧
    strContains "%20"
      (arrayDirective
        (n_jobs (to_process timepoints wells zstack_value input_path).length
          jobs_per_file)) = true := by
  have hlen := to_process_length timepoints wells zstack_value input_path
  refine ⟨hlen, ?_, ?_, ?_⟩
  · rw [hlen, n_jobs_eq_ceil _ _ hjpf]
  · simp [runShLines]
  · unfold arrayDirective
    exact strContains_append_right _ _ _ (by decide)

/-- Witness for `batch_job_counts`: one timepoint, two wells,
24 jobs per file. -/
theorem batch_job_counts_witness :
    (to_process ["Timepoint001"] ["Row01_Well02", "Row01_Well03"] 1
        "well_sorted").length = 1 * 2 ∧
    n_jobs (to_process ["Timepoint001"] ["Row01_Well02", "Row01_Well03"] 1
        "well_sorted").length 24 = ⌈((1 * 2 : Nat) : ℚ) / (24 : ℚ)⌉₊ ∧
    arrayDirective
        (n_jobs (to_process ["Timepoint001"] ["Row01_Well02", "Row01_Well03"]
          1 "well_sorted").length 24) ∈
      runShLines "slurm_jobs/stitch_all" 24
        (n_jobs (to_process ["Timepoint001"] ["Row01_Well02", "Row01_Well03"]
          1 "well_sorted").length 24) ∧
    strContains "%20"
      (arrayDirective
        (n_jobs (to_process ["Timepoint001"] ["Row01_Well02", "Row01_Well03"]
          1 "well_sorted").length 24)) = true :=
  batch_job_counts ["Timepoint001"] ["Row01_Well02", "Row01_Well03"] 1 24
    "well_sorted" "slurm_jobs/stitch_all" (by decide)

theorem prefix_chunkEntry (p k : List String) :
    p.isPrefixOf (p ++ k) = true :=
  List.isPrefixOf_iff_prefix.mpr (List.prefix_append p k)

theorem rmtree_append (fs gs : List (List String × Nat)) (p : List String) :
    rmtree (fs ++ gs) p = rmtree fs p ++ rmtree gs p := by
  simp [rmtree, List.filter_append]

theorem rmtree_chunkEntries (p : List String)
    (c : List (List String × Nat)) :
    rmtree (chunkEntries p c) p = [] := by
  induction c with
  | nil => rfl
  | cons e es ih =>
    simp only [chunkEntries, List.map_cons, rmtree, List.filter_cons,
      prefix_chunkEntry, Bool.not_true, Bool.false_eq_true, if_false] at *
    exact ih

theorem rmtree_idem (fs : List (List String × Nat)) (p : List String) :
    rmtree (rmtree fs p) p = rmtree fs p := by
  simp [rmtree, List.filter_filter]

theorem rmtree_of_not_existsUnder {fs : List (List String × Nat)}
    {p : List String} (h : existsUnder fs p = false) :
    rmtree fs p = fs := by
  apply List.filter_eq_self.mpr
  intro a ha
  have h2 := List.any_eq_false.mp h a ha
  simp only [Bool.not_eq_true] at h2
  simp [h2]

/-- C8: over the flat file-system model, running the OME-Zarr exporter
twice at the same store path leaves exactly the second export's chunks
under that path — the pre-existing store is deleted before writing, no
chunk of the first export survives, and entries outside the store path
are untouched. -/
theorem zarr_export_overwrite (fs : List (List String × Nat))
    (p : List String) (c1 c2 : List (List String × Nat)) :
    zarrExport (zarrExport fs p c1) p c2 =
      rmtree fs p ++ chunkEntries p c2 := by
  have hbase :
      rmtree (if existsUnder fs p then rmtree fs p else fs) p =
        rmtree fs p := by
    split
    · exact rmtree_idem fs p
    · rfl
  unfold zarrExport
  congr 1
  by_cases hex :
      existsUnder
        ((if existsUnder fs p then rmtree fs p else fs) ++
          chunkEntries p c1) p = true
  · rw [if_pos hex, rmtree_append, rmtree_chunkEntries, List.append_nil,
      hbase]
  · rw [if_neg hex]
    have hall := List.any_eq_false.mp (Bool.of_not_eq_true hex)
    have hc1 : c1 = [] := by
      cases c1 with
      | nil => rfl
      | cons x xs =>
        exfalso
        have hmem : ((p ++ x.1, x.2) : List String × Nat) ∈
            (if existsUnder fs p then rmtree fs p else fs) ++
              chunkEntries p (x :: xs) := by
          apply List.mem_append_right
          simp [chunkEntries]
        have := hall _ hmem
        simp [prefix_chunkEntry] at this
    subst hc1
    have hnil : chunkEntries p ([] : List (List String × Nat)) = [] := rfl
    rw [hnil, List.append_nil]
    rw [hnil, List.append_nil] at hall
    split
    · rfl
    · next hfalse =>
      exact (rmtree_of_not_existsUnder
        (Bool.of_not_eq_true hfalse)).symm

/-- C10: with `export_examples=True`, `generate_thumbnail` samples
exactly 10 files matching the stitching channel: when fewer than 10
matching files exist the call raises the `ValueError` of
`random.sample` before writing any example image, and when at least 10
exist it writes one image per sampled file per channel —
`channels.length * 10` files in total. -/
theorem thumbnail_example_sampling (input_files : List String)
    (pattern stitching_channel : String) (channels : List String) :
    ((dapiFiles input_files pattern stitching_channel).length < 10 →
      exportExamples input_files pattern stitching_channel channels =
        Except.error
          "ValueError: Sample larger than population or is negative") ∧
    (10 ≤ (dapiFiles input_files pattern stitching_channel).length →
      ∃ written,
        exportExamples input_files pattern stitching_channel channels =
          Except.ok written ∧
        written.length = channels.length * 10) := by
  constructor
  · intro hfew
    unfold exportExamples
    rw [if_neg (by omega)]
  · intro hten
    unfold exportExamples
    rw [if_pos hten]
    refine ⟨_, rfl, ?_⟩
    have htake :
        ((dapiFiles input_files pattern stitching_channel).take 10).length
          = 10 := by
      rw [List.length_take]
      omega
    induction channels with
    | nil => simp
    | cons c cs ih =>
      simp only [List.flatMap_cons, List.length_append, List.length_map,
        htake, ih, List.length_cons]
      ring

/-- Witness for `thumbnail_example_sampling`: two matching files make
the call raise; ten matching files give 2 * 10 written examples for two
channels. -/
theorem thumbnail_example_sampling_witness :
    exportExamples
        ["Row01_Well01_DAPI_r01_c01.tif", "Row01_Well01_DAPI_r01_c02.tif"]
        "Row01_Well01_DAPI" "DAPI" ["DAPI", "GFP"] =
      Except.error
        "ValueError: Sample larger than population or is negative" ∧
    ∃ written,
      exportExamples (List.replicate 10 "a_DAPI.tif") "a_DAPI.tif" "DAPI"
          ["DAPI", "GFP"] =
        Except.ok written ∧
      written.length = (["DAPI", "GFP"] : List String).length * 10 :=
  ⟨(thumbnail_example_sampling _ _ _ _).1 (by decide),
   (thumbnail_example_sampling _ _ _ _).2 (by decide)⟩

theorem channelNodes_ids (i : Nat) (ch : List String) :
    (channelNodes i ch).map (XmlNode.attr "id") =
      (List.range' (i + 1) ch.length).map (fun k => some (toString k)) := by
  induction ch generalizing i with
  | nil => simp [channelNodes]
  | cons c cs ih =>
    simp only [channelNodes, List.map_cons, List.length_cons,
      List.range'_succ]
    rw [ih (i + 1)]
    congr 1

theorem channelNodes_names (i : Nat) (ch : List String) :
    (channelNodes i ch).map (fun n => (n.children.head!).innerText) =
      ch := by
  induction ch generalizing i with
  | nil => simp [channelNodes]
  | cons c cs ih =>
    simp only [channelNodes, List.map_cons]
    rw [ih (i + 1)]
    congr 1

theorem imageNodes_urls (i : Nat) (ps : List String) :
    (imageNodes i ps).map (XmlNode.attr "url") = ps.map some := by
  induction ps generalizing i with
  | nil => simp [imageNodes]
  | cons p ps ih =>
    simp only [imageNodes, List.map_cons]
    rw [ih (i + 1)]
    congr 1

theorem imageNodes_channelRefs (i : Nat) (ps : List String) :
    (imageNodes i ps).map (fun n => (n.children.head!).innerText) =
      (List.range' (i + 1) ps.length).map (fun k => toString k) := by
  induction ps generalizing i with
  | nil => simp [imageNodes]
  | cons p ps ih =>
    simp only [imageNodes, List.map_cons, List.length_cons,
      List.range'_succ]
    rw [ih (i + 1)]
    congr 1

theorem imagePaths_eq (slidename : String) (ch : List String)
    (cropped : Bool) :
    imagePaths slidename ch cropped =
      ch.map (fun c => slidename ++ "_" ++ c ++
        (if cropped then "_cropped.tif" else ".tif")) := by
  cases cropped <;> simp [imagePaths]

set_option maxRecDepth 20000 in
/-- C6: the sidecar built by `_write_xml` has fixed root `BIAS`, one
`channel` element per channel carrying the 1-based id `i+1` and the
channel name in list order, and one `image` element per channel whose
`url` is `{slide}_{channel}.tif` (`_cropped.tif` when cropped) and whose
`channel` reference is the same 1-based id; the serialization uses
4-space indentation and CRLF line endings, and for channels
`["DAPI","Alexa488"]` and slide `"S1"` it is exactly the displayed
document with ids 1 and 2 and URLs `S1_DAPI.tif` and `S1_Alexa488.tif`. -/
theorem write_xml_sidecar (channels : List String) (slidename : String)
    (cropped : Bool) :
    (biasDoc channels slidename cropped).tagName = "BIAS" ∧
    ((biasDoc channels slidename cropped).children.head!).children.map
        (XmlNode.attr "id") =
      (List.range' 1 channels.length).map (fun k => some (toString k)) ∧
    ((biasDoc channels slidename cropped).children.head!).children.map
        (fun n => (n.children.head!).innerText) = channels ∧
    ((biasDoc channels slidename cropped).children.tail.head!).children.map
        (XmlNode.attr "url") =
      channels.map (fun c => some (slidename ++ "_" ++ c ++
        (if cropped then "_cropped.tif" else ".tif"))) ∧
    ((biasDoc channels slidename cropped).children.tail.head!).children.map
        (fun n => (n.children.head!).innerText) =
      (List.range' 1 channels.length).map (fun k => toString k) ∧
    xmlResult ["DAPI", "Alexa488"] "S1" false =
      "<?xml version=\"1.0\" encoding=\"UTF-8\"?>\r\n<BIAS version=\"1.0\">\r\n    <channels>\r\n        <channel id=\"1\">\r\n            <name>DAPI</name>\r\n        </channel>\r\n        <channel id=\"2\">\r\n            <name>Alexa488</name>\r\n        </channel>\r\n    </channels>\r\n    <images>\r\n        <image url=\"S1_DAPI.tif\">\r\n            <channel>1</channel>\r\n        </image>\r\n        <image url=\"S1_Alexa488.tif\">\r\n            <channel>2</channel>\r\n        </image>\r\n    </images>\r\n</BIAS>" := by
  refine ⟨rfl, ?_, ?_, ?_, ?_, ?_⟩
  · show (channelNodes 0 channels).map (XmlNode.attr "id") = _
    simpa using channelNodes_ids 0 channels
  · show (channelNodes 0 channels).map
        (fun n => (n.children.head!).innerText) = _
    exact channelNodes_names 0 channels
  · show (imageNodes 0 (imagePaths slidename channels cropped)).map
        (XmlNode.attr "url") = _
    rw [imageNodes_urls, imagePaths_eq, List.map_map]
    rfl
  · show (imageNodes 0 (imagePaths slidename channels cropped)).map
        (fun n => (n.children.head!).innerText) = _
    rw [imageNodes_channelRefs]
    have hlen : (imagePaths slidename channels cropped).length =
        channels.length := by
      cases cropped <;> simp [imagePaths]
    rw [hlen]
  · simp only [xmlResult, serializeDoc, biasDoc, nodeLines, childLines,
      imagePaths, channelNodes, imageNodes, xmlAttrs, indentOf, xmlHeader,
      XmlNode.isText, XmlNode.textContent, List.all_cons, List.all_nil,
      List.map_cons, List.map_nil, String.join]
    rfl

end Sparcs
